import Mathlib

/-!
Shallow embedding of the sync-pair reconciliation engine of `sync_manager.py`
(class `SyncPair`: `_pull_changes`, `_commit_and_push`, `sync`,
`_ensure_valid_repository`).

The version-control engine is an external collaborator; each call the code
makes to it is represented by an entry of an environment structure giving that
call's outcome.  A failing engine call is a `GitCommandError` carrying the
engine's message (the only exception class the code catches), modelled as the
`.error` side of `Except String`.  Every embedded function also returns the
list of engine calls it performed, in order, so that "no adapter calls" and
"exactly one retried pull" are statable.  Wall-clock times are rationals.
-/

deriving instance DecidableEq for Except

namespace DataSync

/-- Engine (repository-adapter) calls made by the code, in the order the
source issues them. -/
inductive Call where
  | isDirty
  | activeBranch
  | checkout (b : String)
  | headLookup
  | pull
  | mergeAbort
  | resetHard (ref : String)
  | indexAdd
  | indexDiffHead
  | indexCommit (msg : String)
  | remoteTip
  | push
deriving DecidableEq

/-- Outcomes of the engine calls made by one run of `_commit_and_push`
(sync_manager.py lines 539-569).  `addRes`/`pushRes` are `some msg` when the
corresponding call raises `GitCommandError msg` (pushing to an unreachable
remote raises; a rejected push merely leaves the remote-tracking ref
unchanged).  `diffNonempty` is the truthiness of `index.diff('HEAD')`;
`tipBefore`/`tipAfter` are the remote-tracking ref of the branch before and
after the push, `none` when the branch is not yet known to the remote
(`self.branch in self.repo.remotes.origin.refs` is false). -/
structure CPEnv where
  addRes : Option String
  diffNonempty : Bool
  tipBefore : Option String
  pushRes : Option String
  tipAfter : Option String
deriving DecidableEq

/-- Embedding of `SyncPair._commit_and_push` (lines 546-569): stage all,
commit when the staged tree differs from HEAD, look up the remote tip, push,
look up the remote tip again; return `committed or pushed` where `pushed` is
`old_remote_head != new_remote_head` (with `None` for an absent ref).  No
exception is caught here, so engine errors propagate to the caller. -/
def commitAndPush (env : CPEnv) (msg : String) : Except String Bool × List Call :=
  match env.addRes with
  | some e => (.error e, [.indexAdd])
  | none =>
    let committed := env.diffNonempty
    let t1 : List Call :=
      [.indexAdd, .indexDiffHead] ++ (if committed then [Call.indexCommit msg] else [])
    match env.pushRes with
    | some e => (.error e, t1 ++ [.remoteTip, .push])
    | none =>
      let pushed : Bool := env.tipBefore != env.tipAfter
      (.ok (committed || pushed), t1 ++ [.remoteTip, .push, .remoteTip])

/-- Outcomes of the engine calls one run of `_pull_changes` (lines 458-519)
may make.  `indexVsHead` / `workVsIndex` are the two diffs `repo.is_dirty()`
consults (its default excludes untracked files, listed here in `untracked`
only to record that exclusion).  `cp` drives the pre-pull
`_commit_and_push()`.  Each `Option String` field is `some msg` when the
corresponding engine call raises `GitCommandError msg`; fields prefixed
`mc`/`ut`/`ot` belong to the merge-conflict, untracked-collision and
any-other recovery branches of the handler. -/
structure PullEnv where
  indexVsHead : Bool
  workVsIndex : Bool
  untracked : List String
  cp : CPEnv
  activeBranch : String
  checkoutRes : Option String
  headBefore : Option String
  pullRes : Option String
  headAfter : Option String
  abortRes : Option String
  mcResetRes : Option String
  mcPullRes : Option String
  utAddRes : Option String
  utCommitRes : Option String
  utPullRes : Option String
  otResetRes : Option String
deriving DecidableEq

/-- Embedding of `repo.is_dirty()` as called at line 467: with its default
arguments it reports staged (index vs HEAD) or unstaged (working tree vs
index) modifications and ignores untracked files. -/
def reposDirty (env : PullEnv) : Bool := env.indexVsHead || env.workVsIndex

/-- ASCII lower-casing of one character, as Python's `str.lower()` does on
the engine's ASCII error text. -/
def lowerChar (c : Char) : Char :=
  if 65 ≤ c.toNat ∧ c.toNat ≤ 90 then Char.ofNat (c.toNat + 32) else c

/-- Tests whether `pat` is a prefix of `s`, on character lists. -/
def startsWithL : List Char → List Char → Bool
  | _, [] => true
  | [], _ :: _ => false
  | a :: s, b :: p => a == b && startsWithL s p

/-- Tests whether `pat` occurs as a contiguous substring of `s`. -/
def hasSubL (s pat : List Char) : Bool :=
  match s with
  | [] => startsWithL [] pat
  | _ :: t => startsWithL s pat || hasSubL t pat

/-- Substring test on the lower-cased message: Python's
`pat in str(e).lower()`. -/
def containsSub (s pat : String) : Bool := hasSubL (s.data.map lowerChar) pat.data

/-- Classification at line 486: `"merge conflict" in str(e).lower()`. -/
def isMergeConflictErr (e : String) : Bool := containsSub e "merge conflict"

/-- Classification at line 500: `"untracked working tree files" in str(e).lower()`. -/
def isUntrackedErr (e : String) : Bool := containsSub e "untracked working tree files"

/-- Tail of the `try` body of `_pull_changes` (lines 473-482): record HEAD,
pull, record HEAD again, return whether HEAD changed.  A pull failure is the
`.error` side with its message. -/
def pullBodyTail (env : PullEnv) (tr : List Call) : Except String Bool × List Call :=
  match env.pullRes with
  | some e => (.error e, tr ++ [Call.headLookup, Call.pull])
  | none =>
    (.ok (env.headBefore != env.headAfter),
      tr ++ [Call.headLookup, Call.pull, Call.headLookup])

/-- Middle of the `try` body (lines 469-472): read the active branch and
check out the configured branch when they differ. -/
def pullBodyBranch (env : PullEnv) (branch : String) (tr : List Call) :
    Except String Bool × List Call :=
  if env.activeBranch = branch then
    pullBodyTail env (tr ++ [Call.activeBranch])
  else
    match env.checkoutRes with
    | some e => (.error e, tr ++ [Call.activeBranch, Call.checkout branch])
    | none => pullBodyTail env (tr ++ [Call.activeBranch, Call.checkout branch])

/-- Whole `try` body of `_pull_changes` (lines 465-482): when the repository
is dirty (tracked modifications only; untracked files do not count) first run
`_commit_and_push`, whose error, if any, is what the `except` clause then
sees. -/
def pullBody (env : PullEnv) (branch msg : String) : Except String Bool × List Call :=
  if reposDirty env then
    match commitAndPush env.cp msg with
    | (.error e, ctr) => (.error e, Call.isDirty :: ctr)
    | (.ok _, ctr) => pullBodyBranch env branch (Call.isDirty :: ctr)
  else pullBodyBranch env branch [Call.isDirty]

/-- The `except git.exc.GitCommandError` handler of `_pull_changes`
(lines 483-519).  Merge-conflict messages: abort the merge (outcome ignored),
hard-reset to `origin/branch`, retry the pull once, returning true on retry
success.  Untracked-collision messages: stage all, commit
"Add untracked files", retry the pull once.  Anything else: best-effort
hard-reset to `origin/branch`, returning true when the reset succeeds.
Every failure inside the handler is caught and yields false. -/
def pullHandler (env : PullEnv) (branch e : String) : Bool × List Call :=
  if isMergeConflictErr e then
    match env.mcResetRes with
    | some _ => (false, [Call.mergeAbort, Call.resetHard ("origin/" ++ branch)])
    | none =>
      match env.mcPullRes with
      | some _ =>
        (false, [Call.mergeAbort, Call.resetHard ("origin/" ++ branch), Call.pull])
      | none =>
        (true, [Call.mergeAbort, Call.resetHard ("origin/" ++ branch), Call.pull])
  else if isUntrackedErr e then
    match env.utAddRes with
    | some _ => (false, [Call.indexAdd])
    | none =>
      match env.utCommitRes with
      | some _ => (false, [Call.indexAdd, Call.indexCommit "Add untracked files"])
      | none =>
        match env.utPullRes with
        | some _ =>
          (false, [Call.indexAdd, Call.indexCommit "Add untracked files", Call.pull])
        | none =>
          (true, [Call.indexAdd, Call.indexCommit "Add untracked files", Call.pull])
  else
    match env.otResetRes with
    | some _ => (false, [Call.resetHard ("origin/" ++ branch)])
    | none => (true, [Call.resetHard ("origin/" ++ branch)])

/-- Embedding of `SyncPair._pull_changes` (lines 458-519): the `try` body,
with every `GitCommandError` routed to the handler.  The result is kept as
`Except` to make "no error is re-raised" a statement rather than a typing
artifact. -/
def pullChanges (env : PullEnv) (branch msg : String) : Except String Bool × List Call :=
  match pullBody env branch msg with
  | (.ok b, tr) => (.ok b, tr)
  | (.error e, tr) =>
    let h := pullHandler env branch e
    (.ok h.1, tr ++ h.2)

/-- Mutable state of a `SyncPair` that `sync` touches: the non-blocking lock
(line 303/433) and `last_sync_time` (line 297, initialized to 0). -/
structure SyncState where
  lockHeld : Bool
  lastSyncTime : ℚ
deriving DecidableEq

/-- Embedding of `SyncPair.sync` (lines 425-456).  `now` is `time.time()` at
line 437.  A call finding the lock held returns at once (line 434); a call
inside the throttling window returns with the lock released and nothing else
done (lines 440-441); otherwise pull, then commit-and-push, and set
`last_sync_time := now` - except that an error raised by a step is caught at
line 453 before the timestamp assignment, which is then skipped.  The
`finally` releases the lock on every path. -/
def sync (st : SyncState) (now auto : ℚ) (penv : PullEnv) (cenv : CPEnv)
    (branch msg : String) : SyncState × List Call :=
  if st.lockHeld then (st, [])
  else if now - st.lastSyncTime < auto then
    ({ st with lockHeld := false }, [])
  else
    let p := pullChanges penv branch msg
    match commitAndPush cenv msg with
    | (.ok _, tr2) => ({ lockHeld := false, lastSyncTime := now }, p.2 ++ tr2)
    | (.error _, tr2) =>
      ({ lockHeld := false, lastSyncTime := st.lastSyncTime }, p.2 ++ tr2)

/-- A sequence of `sync` calls on one pair, each supplying the clock value
and the engine outcomes of that cycle. -/
def syncSeq (st : SyncState) (auto : ℚ) (branch msg : String) :
    List (ℚ × PullEnv × CPEnv) → SyncState
  | [] => st
  | (now, penv, cenv) :: rest =>
    syncSeq (sync st now auto penv cenv branch msg).1 auto branch msg rest

/-- A commit of the repair model: an identifier, its message, and whether it
was created empty (no staged content). -/
structure Commit where
  id : Nat
  message : String
  isEmpty : Bool
deriving DecidableEq

/-- Repository view used by `_ensure_valid_repository`: whether
`repo.head.commit` resolves, what it resolves to, the history as
`iter_commits()` returns it - newest commit first, like `git log` - the local
branches and the checked-out branch.  `nextId` feeds fresh commit ids. -/
structure GitRepo where
  headValid : Bool
  headCommit : Option Nat
  history : List Commit
  branches : List String
  current : String
  nextId : Nat
deriving DecidableEq

/-- Embedding of `list(self.repo.iter_commits())` as called at line 319:
with its default revision, `iter_commits` first evaluates
`self.head.commit`, so while HEAD does not resolve it raises that
resolution error (a `ValueError`/`BadName`, carried here as its message)
instead of returning the history. -/
def iterCommits (r : GitRepo) : Except String (List Commit) :=
  if r.headValid then .ok r.history
  else .error "head reference does not exist"

/-- Embedding of `SyncPair._ensure_valid_repository` (lines 305-333), the
last repair step of the constructor.  When HEAD resolves the method does
nothing.  When it does not, the `except` handler first calls
`list(self.repo.iter_commits())`; the written continuation - reset HEAD
(and the working tree) to `commits[0]`, the first element of the
newest-first iteration, when any commits exist, otherwise create the single
empty commit "Initial empty commit", then check out the configured branch,
creating it when absent - runs only if that call returns, and an error it
raises inside the handler is caught by nothing here and propagates to the
caller (the constructor), failing the pair's construction. -/
def ensureValidRepository (branch : String) (r : GitRepo) : Except String GitRepo :=
  if r.headValid then .ok r
  else
    match iterCommits r with
    | .error e => .error e
    | .ok commits =>
      let r1 : GitRepo :=
        match commits with
        | c :: _ => { r with headValid := true, headCommit := some c.id }
        | [] =>
          let c : Commit := ⟨r.nextId, "Initial empty commit", true⟩
          { r with history := [c], headValid := true, headCommit := some c.id,
                   nextId := r.nextId + 1 }
      if branch ∈ r1.branches then .ok { r1 with current := branch }
      else .ok { r1 with branches := branch :: r1.branches, current := branch }

/-- A commit-and-push environment in which nothing is staged, the remote is
reachable and the remote tip does not move. -/
def cpNoop : CPEnv :=
  { addRes := none, diffNonempty := false, tipBefore := some "r0",
    pushRes := none, tipAfter := some "r0" }

/-- A commit-and-push environment whose push raises (remote unreachable). -/
def cpPushFail : CPEnv :=
  { cpNoop with pushRes := some "failed to push some refs" }

/-- A pull environment in which the tree is clean, the branch already
matches, and the pull succeeds without moving HEAD. -/
def penvClean : PullEnv :=
  { indexVsHead := false, workVsIndex := false, untracked := [],
    cp := cpNoop, activeBranch := "main", checkoutRes := none,
    headBefore := some "h0", pullRes := none, headAfter := some "h0",
    abortRes := none, mcResetRes := none, mcPullRes := none,
    utAddRes := none, utCommitRes := none, utPullRes := none,
    otResetRes := none }

/-- A pull environment whose first pull fails with the engine's
merge-conflict message and whose recovery calls all succeed. -/
def penvMc : PullEnv :=
  { penvClean with pullRes := some "Merge conflict in a.txt" }

/-- A commit-and-push environment for a branch not yet known to the remote:
nothing staged, no prior remote-tracking ref, push succeeds and creates the
remote branch. -/
def cpNewBranch : CPEnv :=
  { addRes := none, diffNonempty := false, tipBefore := none,
    pushRes := none, tipAfter := some "h1" }

/-- Whether the recovery performed by the `except` handler of
`_pull_changes` for the message `e` succeeds (every engine call of the
chosen recovery branch returns without error). -/
def recoveryOk (env : PullEnv) (e : String) : Bool :=
  if isMergeConflictErr e then
    match env.mcResetRes, env.mcPullRes with
    | none, none => true
    | _, _ => false
  else if isUntrackedErr e then
    match env.utAddRes, env.utCommitRes, env.utPullRes with
    | none, none, none => true
    | _, _, _ => false
  else
    match env.otResetRes with
    | none => true
    | _ => false

/-- The handler's boolean result is exactly `recoveryOk`. -/
theorem pullHandler_fst (env : PullEnv) (branch e : String) :
    (pullHandler env branch e).1 = recoveryOk env e := by
  by_cases hm : isMergeConflictErr e = true
  · rcases hmr : env.mcResetRes with _ | a <;> rcases hmp : env.mcPullRes with _ | b <;>
      simp [pullHandler, recoveryOk, hm, hmr, hmp]
  · by_cases hu : isUntrackedErr e = true
    · rcases hua : env.utAddRes with _ | a <;> rcases huc : env.utCommitRes with _ | b <;>
        rcases hup : env.utPullRes with _ | c <;>
        simp [pullHandler, recoveryOk, hm, hu, hua, huc, hup]
    · rcases hor : env.otResetRes with _ | a <;>
        simp [pullHandler, recoveryOk, hm, hu, hor]

/-- C1 counterexample: a `sync` call that passes the guard (lock free) and
the rate-limit check (10 time units elapsed, interval 1) but whose
commit-and-push step raises a handled error does NOT update
`last_sync_time` to the current time 10 - it stays 0, so the throttling
window does not restart on this attempted cycle. -/
theorem sync_attempted_cycle_timestamp_cex :
    (⟨false, 0⟩ : SyncState).lockHeld = false ∧ ¬ ((10 : ℚ) - 0 < 1) ∧
    (sync ⟨false, 0⟩ 10 1 penvClean cpPushFail "main" "m").1.lastSyncTime = 0 ∧
    (0 : ℚ) ≠ 10 := by
  refine ⟨rfl, by norm_num, ?_, by norm_num⟩
  norm_num [sync, penvClean, cpPushFail, cpNoop, pullChanges, pullBody,
    pullBodyBranch, pullBodyTail, commitAndPush, reposDirty]

/-- C1 (amended): for every `sync` call that passes the guard and the
rate-limit check and whose cycle runs to completion (commit-and-push returns
a boolean rather than raising), `last_sync_time` is set to the current time
regardless of whether pull or commit-and-push produced an effect; when a
step raises, the error is caught and the timestamp update is skipped. -/
theorem sync_updates_timestamp_on_completed_cycle (st : SyncState) (now auto : ℚ)
    (penv : PullEnv) (cenv : CPEnv) (branch msg : String)
    (h1 : st.lockHeld = false) (h2 : ¬ now - st.lastSyncTime < auto)
    (h3 : ∃ b, (commitAndPush cenv msg).1 = Except.ok b) :
    (sync st now auto penv cenv branch msg).1.lastSyncTime = now := by
  obtain ⟨b, hb⟩ := h3
  rcases hcp : commitAndPush cenv msg with ⟨r, tr⟩
  rw [hcp] at hb
  simp only at hb
  subst hb
  simp [sync, h1, h2, hcp]

/-- C1 witness: a completed cycle at time 10 sets the timestamp to 10. -/
theorem sync_updates_timestamp_on_completed_cycle_witness :
    (sync ⟨false, 0⟩ 10 1 penvClean cpNoop "main" "m").1.lastSyncTime = 10 :=
  sync_updates_timestamp_on_completed_cycle ⟨false, 0⟩ 10 1 penvClean cpNoop "main" "m"
    rfl (by norm_num) ⟨false, rfl⟩

/-- C2 counterexample: a pull that fails with a message matching neither
recovery pattern, followed by a successful best-effort hard-reset, makes
`_pull_changes` return true - not false as the claim states for a failed
pull. -/
theorem pull_failed_outcome_cex :
    ({ penvClean with pullRes := some "connection reset by peer" } :
        PullEnv).pullRes = some "connection reset by peer" ∧
    (pullChanges { penvClean with pullRes := some "connection reset by peer" }
        "main" "m").1 = Except.ok true := by
  exact ⟨rfl, by decide⟩

/-- C2 (amended): no engine error is ever re-raised out of `_pull_changes` -
its result is always a boolean - and a pull whose pull call fails returns
true exactly when the recovery branch chosen by the message classification
succeeds (conflict: reset and retry both succeed; untracked collision:
stage, commit and retry succeed; anything else: the best-effort hard-reset
succeeds), false otherwise. -/
theorem pull_no_reraise_and_failed_outcome (env : PullEnv) (branch msg e : String) :
    (∃ b, (pullChanges env branch msg).1 = Except.ok b) ∧
    (reposDirty env = false → env.activeBranch = branch → env.pullRes = some e →
      (pullChanges env branch msg).1 = Except.ok (recoveryOk env e)) := by
  constructor
  · rcases hp : pullBody env branch msg with ⟨r, tr⟩
    cases r with
    | ok b => exact ⟨b, by simp [pullChanges, hp]⟩
    | error e2 => exact ⟨(pullHandler env branch e2).1, by simp [pullChanges, hp]⟩
  · intro h1 h2 h3
    simp [pullChanges, pullBody, pullBodyBranch, pullBodyTail, h1, h2, h3,
      pullHandler_fst]

/-- C2 witness: a merge-conflict failure with successful recovery yields the
recovery outcome. -/
theorem pull_no_reraise_and_failed_outcome_witness :
    (pullChanges penvMc "main" "m").1 =
      Except.ok (recoveryOk penvMc "Merge conflict in a.txt") :=
  (pull_no_reraise_and_failed_outcome penvMc "main" "m" "Merge conflict in a.txt").2
    rfl rfl rfl

/-- C3 counterexample: a push failure (remote unreachable) propagates out of
`_commit_and_push` as an error rather than a boolean. -/
theorem commitAndPush_raises_cex :
    (commitAndPush cpPushFail "m").1 = Except.error "failed to push some refs" := by
  decide

/-- C3 (amended): `_commit_and_push` catches nothing - a push failure
propagates the engine error to its caller (where `sync` catches and logs it,
so no error escapes `sync` itself). -/
theorem commitAndPush_propagates_push_error (env : CPEnv) (msg e : String)
    (h1 : env.addRes = none) (h2 : env.pushRes = some e) :
    (commitAndPush env msg).1 = Except.error e := by
  simp [commitAndPush, h1, h2]

/-- C3 witness: a concrete unreachable-remote push error propagates. -/
theorem commitAndPush_propagates_push_error_witness :
    (commitAndPush { cpNoop with pushRes := some "network unreachable" } "m").1 =
      Except.error "network unreachable" :=
  commitAndPush_propagates_push_error
    { cpNoop with pushRes := some "network unreachable" } "m" "network unreachable"
    rfl rfl

/-- C4 counterexample: with nothing to commit and the prior remote tip
undeterminable (branch not yet on the remote), a push that creates the
remote branch makes `_commit_and_push` return true - not false as the claim
states. -/
theorem commitAndPush_no_commit_new_branch_cex :
    cpNewBranch.diffNonempty = false ∧ cpNewBranch.tipBefore = none ∧
    (commitAndPush cpNewBranch "m").1 = Except.ok true := by
  refine ⟨rfl, rfl, by decide⟩

/-- C4 (amended): when staging and push succeed, `_commit_and_push` returns
true iff a commit occurred or the remote-tracking ref before the push
differs from the one after it, an absent ref being compared as a distinct
"none" value; an absent prior ref is not an error, but a push that creates
the remote branch makes the refs differ, so a call that commits nothing in
that situation can still return true. -/
theorem commitAndPush_result_characterization (env : CPEnv) (msg : String)
    (h1 : env.addRes = none) (h2 : env.pushRes = none) :
    (commitAndPush env msg).1 =
      Except.ok (env.diffNonempty || (env.tipBefore != env.tipAfter)) := by
  simp [commitAndPush, h1, h2]

/-- C4 witness: characterization evaluated on the no-op environment. -/
theorem commitAndPush_result_characterization_witness :
    (commitAndPush cpNoop "m").1 =
      Except.ok (cpNoop.diffNonempty || (cpNoop.tipBefore != cpNoop.tipAfter)) :=
  commitAndPush_result_characterization cpNoop "m" rfl rfl

/-- C5: a `sync` call made with the guard free but inside the throttling
window (elapsed time since `last_sync_time` below the autocommit interval)
performs no engine calls at all and returns the state unchanged - in
particular `last_sync_time` is untouched; only the guard was acquired and
released. -/
theorem sync_rate_limited_is_noop (st : SyncState) (now auto : ℚ)
    (penv : PullEnv) (cenv : CPEnv) (branch msg : String)
    (h1 : st.lockHeld = false) (h2 : now - st.lastSyncTime < auto) :
    sync st now auto penv cenv branch msg = (st, []) := by
  cases st with
  | mk lk ts =>
    simp only [SyncState.lockHeld] at h1
    subst h1
    simp only [SyncState.lastSyncTime] at h2
    simp [sync, h2]

/-- C5 witness: a call 1 time unit after the last sync, with interval 5, is
a complete no-op. -/
theorem sync_rate_limited_is_noop_witness :
    sync ⟨false, 0⟩ 1 5 penvClean cpNoop "main" "m" = (⟨false, 0⟩, []) :=
  sync_rate_limited_is_noop ⟨false, 0⟩ 1 5 penvClean cpNoop "main" "m"
    rfl (by norm_num)

/-- C6: the non-blocking per-pair guard - a `sync` call that finds the guard
already held returns immediately with no state change and no engine calls,
and a call that acquires the guard has released it on every exit path (the
returned state never has the lock held). -/
theorem sync_guard_exclusion_and_release (st : SyncState) (now auto : ℚ)
    (penv : PullEnv) (cenv : CPEnv) (branch msg : String) :
    (st.lockHeld = true → sync st now auto penv cenv branch msg = (st, [])) ∧
    (st.lockHeld = false →
      (sync st now auto penv cenv branch msg).1.lockHeld = false) := by
  constructor
  · intro h
    simp [sync, h]
  · intro h
    by_cases hc : now - st.lastSyncTime < auto
    · simp [sync, h, hc]
    · rcases hcp : commitAndPush cenv msg with ⟨r, tr⟩
      cases r <;> simp [sync, h, hc, hcp]

/-- C6 witness: a call against a held guard is a no-op. -/
theorem sync_guard_exclusion_and_release_witness :
    sync ⟨true, 0⟩ 10 1 penvClean cpNoop "main" "m" = (⟨true, 0⟩, []) :=
  (sync_guard_exclusion_and_release ⟨true, 0⟩ 10 1 penvClean cpNoop "main" "m").1 rfl

/-- C7: when the first pull fails with a merge-conflict message and the
hard-reset succeeds, `_pull_changes` issues an abort-merge, a hard-reset to
`origin/branch` and exactly one retried pull (the trace holds exactly two
pull calls), returns true exactly when the retried pull succeeds, and
re-raises nothing either way. -/
theorem pull_merge_conflict_recovery (env : PullEnv) (branch msg e : String)
    (h1 : reposDirty env = false) (h2 : env.activeBranch = branch)
    (h3 : env.pullRes = some e) (h4 : isMergeConflictErr e = true)
    (h5 : env.mcResetRes = none) :
    pullChanges env branch msg =
      (Except.ok (env.mcPullRes == none),
        [Call.isDirty, Call.activeBranch, Call.headLookup, Call.pull,
          Call.mergeAbort, Call.resetHard ("origin/" ++ branch), Call.pull]) := by
  rcases hmp : env.mcPullRes with _ | a <;>
    simp [pullChanges, pullBody, pullBodyBranch, pullBodyTail, pullHandler,
      h1, h2, h3, h4, h5, hmp]

/-- C7 witness: the conflict-recovery trace and result on a concrete
environment whose retried pull succeeds. -/
theorem pull_merge_conflict_recovery_witness :
    pullChanges penvMc "main" "m" =
      (Except.ok (penvMc.mcPullRes == none),
        [Call.isDirty, Call.activeBranch, Call.headLookup, Call.pull,
          Call.mergeAbort, Call.resetHard ("origin/" ++ "main"), Call.pull]) :=
  pull_merge_conflict_recovery penvMc "main" "m" "Merge conflict in a.txt"
    rfl rfl rfl (by decide) rfl

/-- A repository whose HEAD is invalid and whose history holds two commits,
newest (id 2) first as `iter_commits()` yields them, so the oldest commit
has id 1. -/
def repoTwo : GitRepo :=
  { headValid := false, headCommit := none,
    history := [⟨2, "second", false⟩, ⟨1, "first", false⟩],
    branches := ["main"], current := "main", nextId := 3 }

/-- A repository with an invalid HEAD and zero commits. -/
def repoEmpty : GitRepo :=
  { headValid := false, headCommit := none, history := [],
    branches := [], current := "master", nextId := 0 }

/-- C8 (code bug): the repair path is unreachable.  At a repository whose
HEAD does not resolve - with zero commits, the claim's own scenario, and
equally with commits in history - `list(iter_commits())` at line 319
re-evaluates `head.commit` inside the `except` handler and re-raises the
resolution error, so `_ensure_valid_repository` propagates it and the
pair's construction fails: no empty commit is created, no reset to any
commit happens and no branch is checked out, where the claim (and the
code's own log messages) promise a completed repair. -/
theorem headRepair_unreachable :
    ensureValidRepository "main" repoEmpty =
      Except.error "head reference does not exist" ∧
    ensureValidRepository "main" repoTwo =
      Except.error "head reference does not exist" := by
  decide

/-- Single-step monotonicity of `last_sync_time` under `sync`. -/
theorem sync_step_mono (st : SyncState) (now auto : ℚ) (penv : PullEnv)
    (cenv : CPEnv) (branch msg : String) (h : 0 ≤ auto) :
    st.lastSyncTime ≤ (sync st now auto penv cenv branch msg).1.lastSyncTime := by
  by_cases hl : st.lockHeld = true
  · simp [sync, hl]
  · simp only [Bool.not_eq_true] at hl
    by_cases hc : now - st.lastSyncTime < auto
    · simp [sync, hl, hc]
    · push_neg at hc
      have hle : st.lastSyncTime ≤ now := by linarith
      rcases hcp : commitAndPush cenv msg with ⟨r, tr⟩
      cases r <;> simp [sync, hl, not_lt.mpr hc, hcp, hle]

/-- C9: over every sequence of `sync` calls, each supplying that call's
clock value and engine outcomes, `last_sync_time` never decreases (each call
either leaves it unchanged - guard held, throttled, or error before the
assignment - or sets it to the supplied current time, which the passed
rate-limit check bounds from below), given a non-negative autocommit
interval. -/
theorem syncSeq_timestamp_monotone (auto : ℚ) (branch msg : String)
    (steps : List (ℚ × PullEnv × CPEnv)) (st : SyncState) (h : 0 ≤ auto) :
    st.lastSyncTime ≤ (syncSeq st auto branch msg steps).lastSyncTime := by
  induction steps generalizing st with
  | nil => simp [syncSeq]
  | cons s rest ih =>
    rcases s with ⟨now, penv, cenv⟩
    exact le_trans (sync_step_mono st now auto penv cenv branch msg h)
      (ih (sync st now auto penv cenv branch msg).1)

/-- C9 witness: monotone over a concrete two-call sequence. -/
theorem syncSeq_timestamp_monotone_witness :
    (⟨false, 0⟩ : SyncState).lastSyncTime ≤
      (syncSeq ⟨false, 0⟩ 1 "main" "m"
        [(10, penvClean, cpNoop), (5, penvClean, cpPushFail)]).lastSyncTime :=
  syncSeq_timestamp_monotone 1 "main" "m"
    [(10, penvClean, cpNoop), (5, penvClean, cpPushFail)] ⟨false, 0⟩ (by norm_num)

/-- No branch of the pull failure handler ever pushes. -/
theorem push_not_in_pullHandler (env : PullEnv) (branch e : String) :
    Call.push ∉ (pullHandler env branch e).2 := by
  by_cases hm : isMergeConflictErr e = true
  · rcases hmr : env.mcResetRes with _ | a <;> rcases hmp : env.mcPullRes with _ | b <;>
      simp [pullHandler, hm, hmr, hmp]
  · by_cases hu : isUntrackedErr e = true
    · rcases hua : env.utAddRes with _ | a <;> rcases huc : env.utCommitRes with _ | b <;>
        rcases hup : env.utPullRes with _ | c <;>
        simp [pullHandler, hm, hu, hua, huc, hup]
    · rcases hor : env.otResetRes with _ | a <;>
        simp [pullHandler, hm, hu, hor]

/-- C10: the pre-pull commit step runs only when the dirtiness check - which
consults staged and unstaged modifications of tracked files and excludes
untracked files - reports true.  When the only local changes are untracked
files, `_pull_changes` never invokes `_commit_and_push` at all: its whole
call trace holds no push (the untracked-collision recovery stages and
commits directly, and a later commit-and-push belongs to `sync`, not to
`_pull_changes`). -/
theorem pull_untracked_only_no_commitAndPush (env : PullEnv) (branch msg : String)
    (h1 : env.indexVsHead = false) (h2 : env.workVsIndex = false) :
    Call.push ∉ (pullChanges env branch msg).2 := by
  have hd : reposDirty env = false := by simp [reposDirty, h1, h2]
  by_cases hb : env.activeBranch = branch
  · rcases hp : env.pullRes with _ | e
    · simp [pullChanges, pullBody, pullBodyBranch, pullBodyTail, hd, hb, hp]
    · simp [pullChanges, pullBody, pullBodyBranch, pullBodyTail, hd, hb, hp,
        push_not_in_pullHandler env branch e]
  · rcases hc : env.checkoutRes with _ | e
    · rcases hp : env.pullRes with _ | e2
      · simp [pullChanges, pullBody, pullBodyBranch, pullBodyTail, hd, hb, hc, hp]
      · simp [pullChanges, pullBody, pullBodyBranch, pullBodyTail, hd, hb, hc, hp,
          push_not_in_pullHandler env branch e2]
    · simp [pullChanges, pullBody, pullBodyBranch, hd, hb, hc,
        push_not_in_pullHandler env branch e]

/-- C10 witness: with only an untracked file present, the pull cycle's trace
holds no push. -/
theorem pull_untracked_only_no_commitAndPush_witness :
    Call.push ∉ (pullChanges { penvClean with untracked := ["notes.txt"] }
      "main" "m").2 :=
  pull_untracked_only_no_commitAndPush
    { penvClean with untracked := ["notes.txt"] } "main" "m" rfl rfl

end DataSync
